import Mathlib

/-!
Verification development for `news_generator.py` (class `RobustNewsPublisher`).

The Python source is shallowly embedded as executable Lean definitions:

* randomness (`random.choice`, `random.randint`) is made explicit by passing the
  drawn values in a `GenInput`;
* the RabbitMQ client (`pika`) is an external oracle: each connection attempt has
  an outcome (`AttemptResult`) supplied by the environment, and the broker side
  of a publish call is a `PublishStep` supplied by the environment;
* the process-wide logger is modelled by returning the list of emitted
  `LogEntry` values alongside each result;
* `json.dumps` is modelled by `encodeRecord`, which renders the news-item
  dictionary with the default Python separators (fields in insertion order,
  strings quoted with backslash escapes for quote and backslash characters; the
  generated records contain only printable ASCII, where this agrees with
  `json.dumps`).
-/

/-! ## Logging -/

/-- Log severity used by the script (`logging` module levels that appear). -/
inductive LogLevel where
  | info
  | warning
  | error
  | critical
deriving DecidableEq

/-- One log line: severity and message text. -/
structure LogEntry where
  level : LogLevel
  msg : String
deriving DecidableEq

/-! ## Small string helpers -/

/-- Decimal digit character (`0`–`9`). -/
def digitChar (n : Nat) : Char := Char.ofNat (48 + n)

/-- Fuel-driven most-significant-first decimal digits of a natural number.
`fuel` only needs to exceed `n` for the value to be the true digit string. -/
def natToDigitsAux : Nat → Nat → List Char
  | 0, _ => []
  | fuel + 1, n =>
    if n < 10 then [digitChar n]
    else natToDigitsAux fuel (n / 10) ++ [digitChar (n % 10)]

/-- Decimal digits of `n`, most significant first. -/
def natToDigits (n : Nat) : List Char := natToDigitsAux (n + 1) n

/-- Decimal rendering of a natural number (used where the Python code formats a
number into a log message). -/
def natStr (n : Nat) : String := String.mk (natToDigits n)

/-- ASCII lowercase of one character; models Python `str.lower` on the ASCII
strings this script works with. -/
def lowerChar (c : Char) : Char :=
  if 65 ≤ c.toNat ∧ c.toNat ≤ 90 then Char.ofNat (c.toNat + 32) else c

/-- ASCII lowercase of a string (`category.lower()` in the source). -/
def strLower (s : String) : String := String.mk (s.data.map lowerChar)

/-! ## Connection establishment (`establish_connection`, lines 84–131)

One connection attempt bundles `pika.BlockingConnection(...)`, opening the
channel, `basic_qos`, and the idempotent `exchange_declare`; the source catches
`AMQPConnectionError`/`AMQPChannelError`/`socket.error` (retry after a 3 s
sleep) separately from every other exception (log critical and `break`). -/

/-- Outcome of one connection attempt, as decided by the external broker/network. -/
inductive AttemptResult where
  | success
  | retryable (err : String)
  | fatal (err : String)
deriving DecidableEq

/-- What `establish_connection` produces: the value returned to the caller
(`connection`, with `none` for Python `None`; a successful connection is
identified by the index of the attempt that produced it), plus the number of
loop iterations executed and the log lines emitted. Only the `connection`
field is the Python return value; `attempts` and `log` are observations. -/
structure ConnectResult where
  connection : Option Nat
  attempts : Nat
  log : List LogEntry
deriving DecidableEq

/-- Warning logged for a failed retryable attempt (0-based `attempt`, displayed
1-based as in the source f-string). -/
def connectWarn (attempt : Nat) (e : String) : LogEntry :=
  ⟨.warning, "Connection attempt " ++ natStr (attempt + 1) ++ " failed: " ++ e ++
    ". Retrying in 3 seconds..."⟩

/-- Info line logged on a successful attempt. -/
def connectInfo (attempt : Nat) : LogEntry :=
  ⟨.info, "Successfully established connection (Attempt " ++ natStr (attempt + 1) ++ ")"⟩

/-- Critical line logged when a non-retryable exception is caught. -/
def connectCritical (e : String) : LogEntry :=
  ⟨.critical, "Unexpected connection error: " ++ e⟩

/-- Error line logged after the retry loop ends without a connection. -/
def connectFailLog : LogEntry :=
  ⟨.error, "Failed to establish RabbitMQ connection after multiple attempts"⟩

/-- The `for attempt in range(self.max_retries)` loop of `establish_connection`,
starting at attempt index `attempt` with `rem` iterations left. -/
def establishFrom (outcome : Nat → AttemptResult) : Nat → Nat → ConnectResult
  | _, 0 => ⟨none, 0, [connectFailLog]⟩
  | attempt, rem + 1 =>
    match outcome attempt with
    | .success => ⟨some attempt, 1, [connectInfo attempt]⟩
    | .retryable e =>
      let r := establishFrom outcome (attempt + 1) rem
      ⟨r.connection, r.attempts + 1, connectWarn attempt e :: r.log⟩
    | .fatal e => ⟨none, 1, [connectCritical e, connectFailLog]⟩

/-- `establish_connection` (lines 84–131): up to `max_retries` attempts, return
the first successful connection, retry on broker/socket errors, stop at once on
any other exception, and return `None` when the loop ends without success. -/
def establish_connection (outcome : Nat → AttemptResult) (max_retries : Nat) : ConnectResult :=
  establishFrom outcome 0 max_retries

/-! ## News item generation (`generate_news_item`, lines 133–154) -/

/-- The fixed category set, in source order (line 140). -/
def categoriesList : List String := ["Technology", "Business", "Science", "World"]

/-- The shared keyword pool sampled by `random.choice` on line 150. -/
def sharedKeywords : List String := ["innovation", "research", "discovery"]

/-- Python `random.randint(lo, hi)` (inclusive bounds), with the raw draw `n`
made explicit. -/
def randint (lo hi n : Nat) : Nat := lo + n % (hi + 1 - lo)

/-- The random draws and the clock reading consumed by one call to
`generate_news_item`: the category choice, the raw id draw, the shared-keyword
choice, and `datetime.now().isoformat()`. -/
structure GenInput where
  catIdx : Fin 4
  idRand : Nat
  kwIdx : Fin 3
  nowIso : String
deriving DecidableEq

/-- The news-item dictionary built on lines 143–154, with its fields in
insertion order. Note the `source` field on line 153. -/
structure NewsRecord where
  id : Nat
  title : String
  content : String
  category : String
  timestamp : String
  keywords : List String
  source : String
deriving DecidableEq

/-- `generate_news_item` (lines 133–154). -/
def generate_news_item (g : GenInput) : NewsRecord :=
  let category := categoriesList.get ⟨g.catIdx.val, g.catIdx.isLt⟩
  { id := randint 1000 9999 g.idRand
    title := "Breaking News: " ++ category ++ " Breakthrough"
    content := "Detailed report on latest developments in " ++ category
    category := category
    timestamp := g.nowIso
    keywords := [sharedKeywords.get ⟨g.kwIdx.val, g.kwIdx.isLt⟩, strLower category]
    source := "NewsGenerator" }

/-- The per-category keyword vocabulary as realized by lines 149–152: the pool
`random.choice` samples from, together with the lowercased category name that
is always appended. -/
def keywordVocabulary (category : String) : List String :=
  sharedKeywords ++ [strLower category]

/-! ## The wire dictionary and the routing key (`publish_message`) -/

/-- A JSON value of one of the three shapes that occur in the news-item
dictionary: a number, a string, or an array of strings. -/
inductive JField where
  | jnum (n : Nat)
  | jstr (s : String)
  | jstrArr (xs : List String)
deriving DecidableEq

/-- The news-item dictionary as an ordered key/value list — exactly the dict
literal of lines 143–154. `json.dumps` serializes these keys in this order. -/
def recordFields (r : NewsRecord) : List (String × JField) :=
  [("id", JField.jnum r.id),
   ("title", JField.jstr r.title),
   ("content", JField.jstr r.content),
   ("category", JField.jstr r.category),
   ("timestamp", JField.jstr r.timestamp),
   ("keywords", JField.jstrArr r.keywords),
   ("source", JField.jstr r.source)]

/-- Python `message.get(key, default)` specialised to string values, as used on
line 182. -/
def getStr (fields : List (String × JField)) (key dflt : String) : String :=
  match fields.lookup key with
  | some (JField.jstr s) => s
  | _ => dflt

/-- The routing key computed on line 182:
`f"news.{message.get('category', 'general')}"`. -/
def routing_key (m : NewsRecord) : String :=
  "news." ++ getStr (recordFields m) "category" "general"

/-! ## Serialization (`json.dumps(message)`, line 175)

`json.dumps` with default arguments renders the dict with separators `", "` and
`": "`, fields in insertion order, and strings quoted, escaping `"` and `\`.
The encoder below produces exactly that text for the news-item dictionary; the
decoder parses it back (it accepts the exact spacing the encoder emits). -/

/-- The double-quote character. -/
def qChar : Char := Char.ofNat 34

/-- The backslash character. -/
def bsChar : Char := Char.ofNat 92

/-- The opening brace character. -/
def lbrace : Char := Char.ofNat 123

/-- The closing brace character. -/
def rbrace : Char := Char.ofNat 125

/-- JSON string-body escaping: `"` and `\` get a backslash, everything else is
copied (the generated records are printable ASCII, where this matches
`json.dumps`). -/
def escapeChars : List Char → List Char
  | [] => []
  | c :: rest =>
    if c = qChar ∨ c = bsChar then bsChar :: c :: escapeChars rest
    else c :: escapeChars rest

/-- A quoted JSON string. -/
def renderJStr (s : String) : List Char :=
  qChar :: (escapeChars s.data ++ [qChar])

/-- The items of a JSON array of strings, separated by `", "`. -/
def renderStrListItems : List String → List Char
  | [] => []
  | [s] => renderJStr s
  | s :: t :: rest => renderJStr s ++ ',' :: ' ' :: renderStrListItems (t :: rest)

/-- A JSON array of strings. -/
def renderStrList (xs : List String) : List Char :=
  '[' :: (renderStrListItems xs ++ [']'])

/-- Literal segment starting the serialized dict: `{"id": `. -/
def seg_id : List Char := [lbrace, qChar, 'i', 'd', qChar, ':', ' ']

/-- Literal segment `, "title": `. -/
def seg_title : List Char := [',', ' ', qChar, 't', 'i', 't', 'l', 'e', qChar, ':', ' ']

/-- Literal segment `, "content": `. -/
def seg_content : List Char :=
  [',', ' ', qChar, 'c', 'o', 'n', 't', 'e', 'n', 't', qChar, ':', ' ']

/-- Literal segment `, "category": `. -/
def seg_category : List Char :=
  [',', ' ', qChar, 'c', 'a', 't', 'e', 'g', 'o', 'r', 'y', qChar, ':', ' ']

/-- Literal segment `, "timestamp": `. -/
def seg_timestamp : List Char :=
  [',', ' ', qChar, 't', 'i', 'm', 'e', 's', 't', 'a', 'm', 'p', qChar, ':', ' ']

/-- Literal segment `, "keywords": `. -/
def seg_keywords : List Char :=
  [',', ' ', qChar, 'k', 'e', 'y', 'w', 'o', 'r', 'd', 's', qChar, ':', ' ']

/-- Literal segment `, "source": `. -/
def seg_source : List Char :=
  [',', ' ', qChar, 's', 'o', 'u', 'r', 'c', 'e', qChar, ':', ' ']

/-- The serialized news item as a character list: `json.dumps` of the dict of
`recordFields`, fields in insertion order with default separators. -/
def encodeRecordChars (r : NewsRecord) : List Char :=
  seg_id ++ natToDigits r.id ++
  seg_title ++ renderJStr r.title ++
  seg_content ++ renderJStr r.content ++
  seg_category ++ renderJStr r.category ++
  seg_timestamp ++ renderJStr r.timestamp ++
  seg_keywords ++ renderStrList r.keywords ++
  seg_source ++ renderJStr r.source ++ [rbrace]

/-- `json.dumps(message)` for the news-item dictionary (line 175). -/
def encodeRecord (r : NewsRecord) : String := String.mk (encodeRecordChars r)

/-! ### Decoding -/

/-- Numeric value of a decimal digit character, `none` for anything else. -/
def digitVal (c : Char) : Option Nat :=
  if 48 ≤ c.toNat ∧ c.toNat ≤ 57 then some (c.toNat - 48) else none

/-- Consume leading decimal digits, accumulating their value into `acc`. -/
def parseNatAux (acc : Nat) : List Char → Nat × List Char
  | [] => (acc, [])
  | c :: rest =>
    match digitVal c with
    | some d => parseNatAux (acc * 10 + d) rest
    | none => (acc, c :: rest)

/-- Parse a decimal number off the front of the input (at least one digit). -/
def parseNat (cs : List Char) : Option (Nat × List Char) :=
  match cs with
  | c :: rest => if (digitVal c).isSome then some (parseNatAux 0 (c :: rest)) else none
  | [] => none

/-- Invert one string-body escape: only `\"` and `\\` are produced by
`escapeChars`. -/
def unescapeChar (c : Char) : Option Char :=
  if c = qChar ∨ c = bsChar then some c else none

/-- Parse the body of a quoted string up to (and consuming) the closing quote. -/
def parseStringBody : List Char → Option (List Char × List Char)
  | [] => none
  | c :: rest =>
    if c = qChar then some ([], rest)
    else if c = bsChar then
      match rest with
      | [] => none
      | e :: rest2 =>
        match unescapeChar e, parseStringBody rest2 with
        | some u, some (l, r) => some (u :: l, r)
        | _, _ => none
    else
      match parseStringBody rest with
      | some (l, r) => some (c :: l, r)
      | none => none

/-- Parse a quoted JSON string off the front of the input. -/
def parseJStr (cs : List Char) : Option (String × List Char) :=
  match cs with
  | c :: rest =>
    if c = qChar then
      match parseStringBody rest with
      | some (l, r) => some (String.mk l, r)
      | none => none
    else none
  | [] => none

/-- Parse the comma-separated items of a nonempty string array, consuming the
closing bracket. `fuel` bounds the recursion; any fuel of at least the number
of items works. -/
def parseStrItems : Nat → List Char → Option (List String × List Char)
  | 0, _ => none
  | fuel + 1, cs =>
    match parseJStr cs with
    | none => none
    | some (s, rest) =>
      match rest with
      | c :: rest2 =>
        if c = ']' then some ([s], rest2)
        else if c = ',' then
          match rest2 with
          | d :: rest3 =>
            if d = ' ' then
              match parseStrItems fuel rest3 with
              | some (ss, r) => some (s :: ss, r)
              | none => none
            else none
          | [] => none
        else none
      | [] => none

/-- Parse a JSON array of strings off the front of the input. -/
def parseStrList (cs : List Char) : Option (List String × List Char) :=
  match cs with
  | c :: rest =>
    if c = '[' then
      match rest with
      | d :: rest2 =>
        if d = ']' then some ([], rest2)
        else
          match parseStrItems (rest.length + 1) rest with
          | some (xs, r) => some (xs, r)
          | none => none
      | [] => none
    else none
  | [] => none

/-- Match the literal `lit` at the front of the input and return the tail. -/
def expectLit : List Char → List Char → Option (List Char)
  | [], cs => some cs
  | l :: ls, c :: cs => if c = l then expectLit ls cs else none
  | _ :: _, [] => none

/-- Decode the serialized news item produced by `encodeRecord` (fields in the
emitted order, exact emitted spacing). -/
def decodeRecordChars (cs : List Char) : Option NewsRecord :=
  match expectLit seg_id cs with
  | none => none
  | some cs1 =>
  match parseNat cs1 with
  | none => none
  | some (idVal, cs2) =>
  match expectLit seg_title cs2 with
  | none => none
  | some cs3 =>
  match parseJStr cs3 with
  | none => none
  | some (titleVal, cs4) =>
  match expectLit seg_content cs4 with
  | none => none
  | some cs5 =>
  match parseJStr cs5 with
  | none => none
  | some (contentVal, cs6) =>
  match expectLit seg_category cs6 with
  | none => none
  | some cs7 =>
  match parseJStr cs7 with
  | none => none
  | some (categoryVal, cs8) =>
  match expectLit seg_timestamp cs8 with
  | none => none
  | some cs9 =>
  match parseJStr cs9 with
  | none => none
  | some (timestampVal, cs10) =>
  match expectLit seg_keywords cs10 with
  | none => none
  | some cs11 =>
  match parseStrList cs11 with
  | none => none
  | some (keywordsVal, cs12) =>
  match expectLit seg_source cs12 with
  | none => none
  | some cs13 =>
  match parseJStr cs13 with
  | none => none
  | some (sourceVal, cs14) =>
  match expectLit [rbrace] cs14 with
  | some [] =>
    some { id := idVal, title := titleVal, content := contentVal,
           category := categoryVal, timestamp := timestampVal,
           keywords := keywordsVal, source := sourceVal }
  | _ => none

/-- `json.loads` of the wire text, restricted to the shape `encodeRecord`
emits. -/
def decodeRecord (s : String) : Option NewsRecord := decodeRecordChars s.data

/-! ## Publishing (`publish_message`, lines 156–202)

The broker side of a publish call — `connection.channel()`,
`channel.confirm_delivery()` and `channel.basic_publish(...)` — is abstracted
into one environment-chosen outcome: the calls succeed with a truthy result,
succeed with a falsy result (`Message publication not confirmed`), or raise. -/

/-- Behaviour of the broker client during the channel/confirm/publish calls. -/
inductive PublishStep where
  | confirmed
  | unconfirmed
  | brokerError (err : String)

/-- The external environment of one `publish_message` call: the outcome of each
connection attempt inside `establish_connection`, the configured
`max_retries`, and the broker behaviour for the publish itself. -/
structure PublishEnv where
  connectOutcome : Nat → AttemptResult
  max_retries : Nat
  broker : PublishStep

/-- State of the `try` block of `publish_message` when control leaves it:
`exn` is the exception propagating out of the block (if any), `conn` is the
value of the local `connection` variable (`none` for Python `None`, otherwise
`some is_closed`), `sentBody` is the serialized payload handed to
`basic_publish` (when that call was reached). -/
structure TryResult where
  exn : Option String
  succeeded : Bool
  sentBody : Option String
  conn : Option Bool
  log : List LogEntry

/-- The `try` block of `publish_message` (lines 164–194): establish a
connection (raising `ConnectionError` when it is `None`), open a channel,
serialize with `json.dumps`, enable confirms, publish, and log the result. -/
def publish_try (env : PublishEnv) (message : NewsRecord) : TryResult :=
  let cr := establish_connection env.connectOutcome env.max_retries
  match cr.connection with
  | none =>
    { exn := some "Could not establish RabbitMQ connection"
      succeeded := false
      sentBody := none
      conn := none
      log := cr.log }
  | some _ =>
    match env.broker with
    | .confirmed =>
      { exn := none
        succeeded := true
        sentBody := some (encodeRecord message)
        conn := some false
        log := cr.log ++ [⟨.info, "Successfully published: " ++ message.title⟩] }
    | .unconfirmed =>
      { exn := none
        succeeded := false
        sentBody := some (encodeRecord message)
        conn := some false
        log := cr.log ++ [⟨.warning, "Message publication not confirmed"⟩] }
    | .brokerError e =>
      { exn := some e
        succeeded := false
        sentBody := none
        conn := some false
        log := cr.log }

/-- What one `publish_message` call looks like from outside: `raised` is the
exception escaping the call (the bare `except Exception` on line 196 catches
everything the `try` block raises), `opened` records whether a connection
object was obtained during the call, and `connection` is the state of that
object when the call returns (`none`, or `some is_closed`). -/
structure PublishOutcome where
  raised : Option String
  succeeded : Bool
  sentBody : Option String
  opened : Bool
  connection : Option Bool
  log : List LogEntry
deriving DecidableEq

/-- `publish_message` (lines 156–202): run the `try` block, convert any
exception into a `Publication failed` log line (lines 196–197), and in the
`finally` block close the connection if it exists and is not closed
(lines 199–202). -/
def publish_message (env : PublishEnv) (message : NewsRecord) : PublishOutcome :=
  let t := publish_try env message
  let caughtLog :=
    match t.exn with
    | some e => t.log ++ [⟨.error, "Publication failed: " ++ e⟩]
    | none => t.log
  let finalConn :=
    match t.conn with
    | some false => some true
    | c => c
  { raised := none
    succeeded := t.succeeded
    sentBody := t.sentBody
    opened := t.conn.isSome
    connection := finalConn
    log := caughtLog }

/-! ## The driver loop (`start_news_generation`, lines 204–224)

Each pass of the `while True` loop generates an item and publishes it inside a
`try`/`except Exception` (lines 215–219), then sleeps; a `KeyboardInterrupt`
delivered during the sleep ends the loop (lines 223–224). The loop is modelled
on a finite schedule of cycle events. -/

/-- One scheduled event for the driver loop: either the interrupt arrives, or a
cycle runs with the given environment and random draws. -/
inductive CycleEvent where
  | interrupt
  | run (env : PublishEnv) (g : GenInput)

/-- `start_news_generation` over a finite schedule: the outcomes of the
completed cycles and whether the loop was stopped by the interrupt. -/
def start_news_generation : List CycleEvent → List PublishOutcome × Bool
  | [] => ([], false)
  | CycleEvent.interrupt :: _ => ([], true)
  | CycleEvent.run env g :: rest =>
    let o := publish_message env (generate_news_item g)
    let r := start_news_generation rest
    (o :: r.1, r.2)

/-! ## Lemmas about the retry loop -/

/-- If the first `k` attempts (from `a`) fail retryably and attempt `a + k`
succeeds within the remaining budget, the loop returns that connection after
exactly `k + 1` iterations. -/
theorem establishFrom_success (outcome : Nat → AttemptResult) (k : Nat) :
    ∀ a rem, (∀ i, i < k → ∃ e, outcome (a + i) = AttemptResult.retryable e) →
    outcome (a + k) = AttemptResult.success → k < rem →
    (establishFrom outcome a rem).connection = some (a + k) ∧
    (establishFrom outcome a rem).attempts = k + 1 := by
  induction k with
  | zero =>
    intro a rem _ hs hlt
    match rem, hlt with
    | rem + 1, _ =>
      rw [Nat.add_zero] at hs
      simp [establishFrom, hs]
  | succ k ih =>
    intro a rem hr hs hlt
    match rem, hlt with
    | rem + 1, hlt =>
      obtain ⟨e, he⟩ := hr 0 (Nat.succ_pos k)
      rw [Nat.add_zero] at he
      have hr' : ∀ i, i < k → ∃ e, outcome (a + 1 + i) = AttemptResult.retryable e := by
        intro i hi
        have := hr (i + 1) (by omega)
        rwa [show a + (i + 1) = a + 1 + i by omega] at this
      have hs' : outcome (a + 1 + k) = AttemptResult.success := by
        rwa [show a + (k + 1) = a + 1 + k by omega] at hs
      have := ih (a + 1) rem hr' hs' (by omega)
      simp only [establishFrom, he]
      refine ⟨?_, ?_⟩
      · rw [show a + (k + 1) = a + 1 + k by omega]
        exact this.1
      · rw [this.2]

/-- If every attempt fails retryably, the loop runs all `rem` iterations and
yields no connection. -/
theorem establishFrom_allRetry (outcome : Nat → AttemptResult)
    (h : ∀ i, ∃ e, outcome i = AttemptResult.retryable e) :
    ∀ rem a, (establishFrom outcome a rem).connection = none ∧
      (establishFrom outcome a rem).attempts = rem := by
  intro rem
  induction rem with
  | zero => intro a; simp [establishFrom]
  | succ rem ih =>
    intro a
    obtain ⟨e, he⟩ := h a
    simp [establishFrom, he, ih (a + 1)]

/-- Whenever the loop fails to produce a connection, its final log line is the
`Failed to establish ...` error. -/
theorem establishFrom_log_tail (outcome : Nat → AttemptResult) :
    ∀ rem a, (establishFrom outcome a rem).connection = none →
      ∃ l, (establishFrom outcome a rem).log = l ++ [connectFailLog] := by
  intro rem
  induction rem with
  | zero => intro a _; exact ⟨[], rfl⟩
  | succ rem ih =>
    intro a hc
    match ho : outcome a with
    | .success => simp [establishFrom, ho] at hc
    | .retryable e =>
      simp only [establishFrom, ho] at hc ⊢
      obtain ⟨l, hl⟩ := ih (a + 1) hc
      exact ⟨connectWarn a e :: l, by simp [hl]⟩
    | .fatal e => exact ⟨[connectCritical e], by simp [establishFrom, ho]⟩

/-- When every attempt fails retryably, the warning for the last attempt (and
hence its underlying error text) appears in the log. -/
theorem establishFrom_warn_last (errs : Nat → String) :
    ∀ rem a, 0 < rem →
      connectWarn (a + rem - 1) (errs (a + rem - 1)) ∈
        (establishFrom (fun i => AttemptResult.retryable (errs i)) a rem).log := by
  intro rem
  induction rem with
  | zero => intro a h; omega
  | succ rem ih =>
    intro a _
    simp only [establishFrom]
    rcases Nat.eq_zero_or_pos rem with h0 | hpos
    · subst h0
      simp [establishFrom, show a + 1 - 1 = a by omega]
    · have := ih (a + 1) hpos
      rw [show a + (rem + 1) - 1 = a + 1 + rem - 1 by omega]
      exact List.mem_cons_of_mem _ this

/-- If the first `k` attempts fail retryably and attempt `a + k` raises a
non-retryable error within the budget, the loop stops there: no connection,
exactly `k + 1` iterations. -/
theorem establishFrom_fatal (outcome : Nat → AttemptResult) (err : String) (k : Nat) :
    ∀ a rem, (∀ i, i < k → ∃ e, outcome (a + i) = AttemptResult.retryable e) →
    outcome (a + k) = AttemptResult.fatal err → k < rem →
    (establishFrom outcome a rem).connection = none ∧
    (establishFrom outcome a rem).attempts = k + 1 := by
  induction k with
  | zero =>
    intro a rem _ hs hlt
    match rem, hlt with
    | rem + 1, _ =>
      rw [Nat.add_zero] at hs
      simp [establishFrom, hs]
  | succ k ih =>
    intro a rem hr hs hlt
    match rem, hlt with
    | rem + 1, hlt =>
      obtain ⟨e, he⟩ := hr 0 (Nat.succ_pos k)
      rw [Nat.add_zero] at he
      have hr' : ∀ i, i < k → ∃ e, outcome (a + 1 + i) = AttemptResult.retryable e := by
        intro i hi
        have := hr (i + 1) (by omega)
        rwa [show a + (i + 1) = a + 1 + i by omega] at this
      have hs' : outcome (a + 1 + k) = AttemptResult.fatal err := by
        rwa [show a + (k + 1) = a + 1 + k by omega] at hs
      have := ih (a + 1) rem hr' hs' (by omega)
      simp only [establishFrom, he]
      exact ⟨this.1, by rw [this.2]⟩

/-! ## Lemmas about the serialization -/

/-- Matching a literal against itself followed by anything consumes exactly the
literal. -/
theorem expectLit_append (lit rest : List Char) : expectLit lit (lit ++ rest) = some rest := by
  induction lit with
  | nil => rfl
  | cons c ls ih => simp [expectLit, ih]

/-- Matching a literal against exactly itself leaves the empty tail. -/
theorem expectLit_self (l : List Char) : expectLit l l = some [] := by
  have := expectLit_append l []
  rwa [List.append_nil] at this

/-- `digitVal` inverts `digitChar` on single digits. -/
theorem digitVal_digitChar (n : Nat) (h : n < 10) : digitVal (digitChar n) = some n := by
  interval_cases n <;> decide

/-- The digit string of a number starts with a digit character. -/
theorem natToDigitsAux_head (f : Nat) : ∀ n, n < f →
    ∃ d t, natToDigitsAux f n = digitChar d :: t ∧ d < 10 := by
  induction f with
  | zero => intro n h; omega
  | succ f ih =>
    intro n h
    by_cases h10 : n < 10
    · exact ⟨n, [], by simp [natToDigitsAux, h10], h10⟩
    · obtain ⟨d, t, ht, hd⟩ := ih (n / 10) (by omega)
      refine ⟨d, t ++ [digitChar (n % 10)], ?_, hd⟩
      simp [natToDigitsAux, h10, ht]

/-- Consuming the digit string of `n` multiplies the accumulator by the right
power of ten and adds `n`. -/
theorem parseNatAux_digits (f : Nat) : ∀ n acc rest, n < f →
    parseNatAux acc (natToDigitsAux f n ++ rest) =
      parseNatAux (acc * 10 ^ (natToDigitsAux f n).length + n) rest := by
  induction f with
  | zero => intro n acc rest h; omega
  | succ f ih =>
    intro n acc rest h
    by_cases h10 : n < 10
    · simp only [natToDigitsAux, if_pos h10, List.singleton_append, List.length_singleton]
      simp [parseNatAux, digitVal_digitChar n h10]
    · simp only [natToDigitsAux, if_neg h10, List.append_assoc, List.singleton_append,
        List.length_append, List.length_singleton]
      rw [ih (n / 10) acc _ (by omega)]
      simp only [parseNatAux, digitVal_digitChar (n % 10) (by omega)]
      congr 1
      rw [pow_succ, ← Nat.mul_assoc]
      generalize acc * 10 ^ (natToDigitsAux f (n / 10)).length = q
      omega

/-- Parsing a rendered number followed by a non-digit returns the number. -/
theorem parseNat_digits (n : Nat) (c : Char) (rest : List Char) (hc : digitVal c = none) :
    parseNat (natToDigits n ++ c :: rest) = some (n, c :: rest) := by
  obtain ⟨d, t, ht, hd⟩ := natToDigitsAux_head (n + 1) n (by omega)
  have hcons : natToDigits n ++ c :: rest = digitChar d :: (t ++ c :: rest) := by
    rw [natToDigits, ht]; rfl
  rw [hcons]
  simp only [parseNat, digitVal_digitChar d hd, Option.isSome_some, if_pos]
  rw [← List.cons_append, ← ht, ← natToDigits]
  rw [show natToDigits n = natToDigitsAux (n + 1) n from rfl]
  rw [parseNatAux_digits (n + 1) n 0 (c :: rest) (by omega)]
  simp [parseNatAux, hc]

/-- Parsing a rendered number followed by the `, "title": ` segment. -/
theorem parseNat_digits_seg_title (n : Nat) (X : List Char) :
    parseNat (natToDigits n ++ (seg_title ++ X)) = some (n, seg_title ++ X) :=
  parseNat_digits n ',' (seg_title.tail ++ X) (by decide)

/-- Unfolding lemma for `parseStringBody` on a nonempty input. -/
theorem parseStringBody_cons (c : Char) (rest : List Char) :
    parseStringBody (c :: rest) =
      if c = qChar then some ([], rest)
      else if c = bsChar then
        match rest with
        | [] => none
        | e :: rest2 =>
          match unescapeChar e, parseStringBody rest2 with
          | some u, some (l, r) => some (u :: l, r)
          | _, _ => none
      else
        match parseStringBody rest with
        | some (l, r) => some (c :: l, r)
        | none => none := by
  rw [parseStringBody.eq_def]

/-- Parsing an escaped string body up to its closing quote recovers the
original characters. -/
theorem parseStringBody_escape (l : List Char) : ∀ rest,
    parseStringBody (escapeChars l ++ qChar :: rest) = some (l, rest) := by
  induction l with
  | nil =>
    intro rest
    show parseStringBody (qChar :: rest) = some ([], rest)
    rw [parseStringBody_cons, if_pos rfl]
  | cons c t ih =>
    intro rest
    by_cases hc : c = qChar ∨ c = bsChar
    · simp only [escapeChars, if_pos hc, List.cons_append]
      rw [parseStringBody_cons]
      rw [if_neg (by decide : ¬ bsChar = qChar), if_pos rfl]
      simp [unescapeChar, hc, ih rest]
    · push_neg at hc
      simp only [escapeChars, if_neg (by tauto : ¬ (c = qChar ∨ c = bsChar)), List.cons_append]
      rw [parseStringBody_cons]
      rw [if_neg hc.1, if_neg hc.2]
      simp [ih rest]

/-- Parsing a rendered quoted string recovers the original string. -/
theorem parseJStr_render (s : String) (rest : List Char) :
    parseJStr (renderJStr s ++ rest) = some (s, rest) := by
  have h1 : renderJStr s ++ rest = qChar :: (escapeChars s.data ++ qChar :: rest) := by
    simp [renderJStr]
  rw [h1]
  show (if qChar = qChar then
      match parseStringBody (escapeChars s.data ++ qChar :: rest) with
      | some (l, r) => some (String.mk l, r)
      | none => none
    else none) = some (s, rest)
  rw [if_pos rfl, parseStringBody_escape]

/-- Unfolding lemma for `parseStrItems` with positive fuel. -/
theorem parseStrItems_succ (fuel : Nat) (cs : List Char) :
    parseStrItems (fuel + 1) cs =
      match parseJStr cs with
      | none => none
      | some (s, rest) =>
        match rest with
        | c :: rest2 =>
          if c = ']' then some ([s], rest2)
          else if c = ',' then
            match rest2 with
            | d :: rest3 =>
              if d = ' ' then
                match parseStrItems fuel rest3 with
                | some (ss, r) => some (s :: ss, r)
                | none => none
              else none
            | [] => none
          else none
        | [] => none := by
  rw [parseStrItems.eq_def]

/-- The rendered items of a string list are at least as long as the list minus
one (each item occupies at least two characters). -/
theorem renderStrListItems_ge (xs : List String) :
    xs.length ≤ (renderStrListItems xs).length + 1 := by
  induction xs with
  | nil => simp
  | cons x t ih =>
    cases t with
    | nil => simp [renderStrListItems, renderJStr]
    | cons y t2 =>
      have h2 : renderStrListItems (x :: y :: t2) =
          renderJStr x ++ ',' :: ' ' :: renderStrListItems (y :: t2) := by
        simp [renderStrListItems]
      rw [h2]
      simp only [List.length_append, List.length_cons]
      simp only [List.length_cons] at ih ⊢
      have : 1 ≤ (renderJStr x).length := by simp [renderJStr]
      omega

/-- Parsing the rendered items of a nonempty string list, with enough fuel,
recovers the list and consumes the closing bracket. -/
theorem parseStrItems_render (xs : List String) : ∀ fuel rest, xs ≠ [] →
    xs.length ≤ fuel →
    parseStrItems fuel (renderStrListItems xs ++ ']' :: rest) = some (xs, rest) := by
  induction xs with
  | nil => intro fuel rest h; exact absurd rfl h
  | cons x t ih =>
    intro fuel rest _ hlen
    match fuel, hlen with
    | fuel + 1, hlen =>
      cases t with
      | nil =>
        show parseStrItems (fuel + 1) (renderJStr x ++ ']' :: rest) = some ([x], rest)
        rw [parseStrItems_succ, parseJStr_render]
        simp
      | cons y t2 =>
        have h2 : renderStrListItems (x :: y :: t2) ++ ']' :: rest =
            renderJStr x ++ ',' :: ' ' :: (renderStrListItems (y :: t2) ++ ']' :: rest) := by
          show (renderJStr x ++ ',' :: ' ' :: renderStrListItems (y :: t2)) ++ ']' :: rest = _
          simp
        rw [h2, parseStrItems_succ, parseJStr_render]
        have ht := ih fuel rest (by simp) (by simpa using Nat.le_of_succ_le_succ hlen)
        simp [ht]

/-- Unfolding lemma for `parseStrList` on a nonempty input. -/
theorem parseStrList_cons (c : Char) (rest : List Char) :
    parseStrList (c :: rest) =
      if c = '[' then
        match rest with
        | d :: rest2 =>
          if d = ']' then some ([], rest2)
          else
            match parseStrItems (rest.length + 1) rest with
            | some (xs, r) => some (xs, r)
            | none => none
        | [] => none
      else none := rfl

/-- Parsing a rendered string array recovers the original list. -/
theorem parseStrList_render (xs : List String) (rest : List Char) :
    parseStrList (renderStrList xs ++ rest) = some (xs, rest) := by
  cases xs with
  | nil =>
    show parseStrList ('[' :: ']' :: rest) = some ([], rest)
    rw [parseStrList_cons, if_pos rfl]
    rfl
  | cons x t =>
    obtain ⟨tl, htl⟩ : ∃ tl, renderStrListItems (x :: t) = qChar :: tl := by
      cases t with
      | nil =>
        exact ⟨escapeChars x.data ++ [qChar], by simp [renderStrListItems, renderJStr]⟩
      | cons y t2 =>
        exact ⟨(escapeChars x.data ++ [qChar]) ++ ',' :: ' ' :: renderStrListItems (y :: t2),
          by simp [renderStrListItems, renderJStr]⟩
    have hsh : renderStrList (x :: t) ++ rest = '[' :: (qChar :: (tl ++ ']' :: rest)) := by
      show ('[' :: (renderStrListItems (x :: t) ++ [']'])) ++ rest = _
      simp [htl]
    rw [hsh, parseStrList_cons, if_pos rfl]
    show (if qChar = ']' then some ([], tl ++ ']' :: rest) else _) = some (x :: t, rest)
    rw [if_neg (by decide : ¬ qChar = ']')]
    have harg : (qChar :: (tl ++ ']' :: rest) : List Char) =
        renderStrListItems (x :: t) ++ ']' :: rest := by
      simp [htl]
    rw [harg]
    have hfuel : (x :: t).length ≤ (renderStrListItems (x :: t) ++ ']' :: rest).length + 1 := by
      have := renderStrListItems_ge (x :: t)
      simp only [List.length_append, List.length_cons] at this ⊢
      omega
    rw [parseStrItems_render (x :: t) _ rest (by simp) hfuel]

/-- Round trip at the character level: decoding the serialized news item
recovers every field of the record. -/
theorem decodeRecordChars_encode (r : NewsRecord) :
    decodeRecordChars (encodeRecordChars r) = some r := by
  rw [decodeRecordChars, encodeRecordChars]
  simp only [List.append_assoc]
  simp only [expectLit_append, parseNat_digits_seg_title, parseJStr_render,
    parseStrList_render, expectLit_self]

/-- Round trip at the string level. -/
theorem decodeRecord_encodeRecord (r : NewsRecord) :
    decodeRecord (encodeRecord r) = some r :=
  decodeRecordChars_encode r

/-! ## The claims -/

/-- C1, counterexample: the source does not lowercase the category when it
builds the routing key, so the record with category `"World"` is published
with routing key `"news.World"`, not `"news.world"` as the claim states. -/
theorem routing_key_world_not_lowercased :
    routing_key (generate_news_item ⟨3, 0, 0, "2025-10-12T00:00:00"⟩) = "news.World" ∧
    ("news.World" : String) ≠ "news.world" :=
  ⟨rfl, by decide⟩

/-- C1, amended: the routing key is a pure function of the record's category —
the fixed segment `"news."` followed by the category name exactly as stored,
with no lowercasing — and for generated records it is one of the four keys
with capitalized category names. -/
theorem routing_key_from_category :
    (∀ m1 m2 : NewsRecord, m1.category = m2.category → routing_key m1 = routing_key m2) ∧
    (∀ m : NewsRecord, routing_key m = "news." ++ m.category) ∧
    (∀ g : GenInput, routing_key (generate_news_item g) ∈
      (["news.Technology", "news.Business", "news.Science", "news.World"] : List String)) := by
  refine ⟨?_, fun m => rfl, ?_⟩
  · intro m1 m2 h
    show "news." ++ m1.category = "news." ++ m2.category
    rw [h]
  · intro g
    rcases g with ⟨ci, idr, ki, ts⟩
    have hc : routing_key (generate_news_item ⟨ci, idr, ki, ts⟩) =
        "news." ++ categoriesList.get ⟨ci.val, ci.isLt⟩ := rfl
    rw [hc]
    fin_cases ci <;> decide

/-- C1, witness: two records with the same category (different random draws)
get the same routing key. -/
theorem routing_key_from_category_witness :
    routing_key (generate_news_item ⟨0, 7, 1, "a"⟩) =
      routing_key (generate_news_item ⟨0, 9, 2, "b"⟩) :=
  routing_key_from_category.1 _ _ rfl

/-- C2: every keyword of a generated record is in that record's category
vocabulary (the shared pool plus the lowercased category name), the keyword
count is at most 3 and at most the vocabulary size, and no record carries the
category-specific keyword of a different category. -/
theorem keywords_within_category_vocabulary (g : GenInput) :
    (∀ k, k ∈ (generate_news_item g).keywords →
        k ∈ keywordVocabulary (generate_news_item g).category) ∧
    (generate_news_item g).keywords.length ≤ 3 ∧
    (generate_news_item g).keywords.length ≤
      (keywordVocabulary (generate_news_item g).category).length ∧
    (∀ c, c ∈ categoriesList → c ≠ (generate_news_item g).category →
        strLower c ∉ (generate_news_item g).keywords) := by
  rcases g with ⟨ci, idr, ki, ts⟩
  have hk : (generate_news_item ⟨ci, idr, ki, ts⟩).keywords =
      [sharedKeywords.get ⟨ki.val, ki.isLt⟩,
       strLower (categoriesList.get ⟨ci.val, ci.isLt⟩)] := rfl
  have hc : (generate_news_item ⟨ci, idr, ki, ts⟩).category =
      categoriesList.get ⟨ci.val, ci.isLt⟩ := rfl
  rw [hk, hc]
  fin_cases ci <;> fin_cases ki <;> decide

/-- C2, witness: a concrete Technology record whose keywords land in the
Technology vocabulary and avoid the World-specific keyword. -/
theorem keywords_within_category_vocabulary_witness :
    "technology" ∈ (generate_news_item ⟨0, 5, 2, "t"⟩).keywords ∧
    "technology" ∈ keywordVocabulary (generate_news_item ⟨0, 5, 2, "t"⟩).category ∧
    strLower "World" ∉ (generate_news_item ⟨0, 5, 2, "t"⟩).keywords :=
  ⟨by decide,
   (keywords_within_category_vocabulary ⟨0, 5, 2, "t"⟩).1 "technology" (by decide),
   (keywords_within_category_vocabulary ⟨0, 5, 2, "t"⟩).2.2.2 "World" (by decide) (by decide)⟩

/-- C3: if the first `k < max_retries` attempts fail retryably and the next
succeeds, `establish_connection` returns that connection after exactly `k + 1`
attempts; if every attempt fails retryably, it returns `None` after exactly
`max_retries` attempts. -/
theorem connect_retry_bound (outcome : Nat → AttemptResult) (k m : Nat) :
    ((∀ i, i < k → ∃ e, outcome i = AttemptResult.retryable e) →
      outcome k = AttemptResult.success → k < m →
      (establish_connection outcome m).connection = some k ∧
      (establish_connection outcome m).attempts = k + 1) ∧
    ((∀ i, ∃ e, outcome i = AttemptResult.retryable e) →
      (establish_connection outcome m).connection = none ∧
      (establish_connection outcome m).attempts = m) := by
  constructor
  · intro hr hs hlt
    have := establishFrom_success outcome k 0 m
      (by simpa using hr) (by simpa using hs) hlt
    simpa [establish_connection] using this
  · intro h
    exact establishFrom_allRetry outcome h m 0

/-- C3, witness: with two retryable failures then success and budget 5 the
loop succeeds on attempt index 2 after 3 attempts; with persistent retryable
failure and budget 4 it returns no connection after exactly 4 attempts. -/
theorem connect_retry_bound_witness :
    ((establish_connection (fun i => if i < 2 then .retryable "down" else .success) 5).connection
        = some 2 ∧
      (establish_connection (fun i => if i < 2 then .retryable "down" else .success) 5).attempts
        = 3) ∧
    ((establish_connection (fun _ => .retryable "down") 4).connection = none ∧
      (establish_connection (fun _ => .retryable "down") 4).attempts = 4) :=
  ⟨(connect_retry_bound (fun i => if i < 2 then .retryable "down" else .success) 2 5).1
      (by intro i hi; exact ⟨"down", by simp [hi]⟩) (by simp) (by omega),
   (connect_retry_bound (fun _ => .retryable "down") 0 4).2
      (fun _ => ⟨"down", rfl⟩)⟩

/-- C4, counterexample: the serialized dictionary carries a seventh key
`source` that is not part of the documented six-field schema. -/
theorem payload_has_extra_source_field :
    "source" ∈ (recordFields (generate_news_item ⟨0, 0, 0, "2025-10-12T00:00:00"⟩)).map Prod.fst ∧
    "source" ∉ (["id", "title", "content", "category", "timestamp", "keywords"] : List String) :=
  ⟨by decide, by decide⟩

/-- C4, amended: the wire payload of every generated record consists of the six
documented fields with their documented types — `id` a number, `title`,
`content`, `category`, `timestamp` strings, `keywords` an array of strings —
plus one extra constant string field `source` equal to `"NewsGenerator"`. -/
theorem payload_fields_schema_plus_source (g : GenInput) :
    (recordFields (generate_news_item g)).map Prod.fst =
      ["id", "title", "content", "category", "timestamp", "keywords", "source"] ∧
    recordFields (generate_news_item g) =
      [("id", JField.jnum (generate_news_item g).id),
       ("title", JField.jstr (generate_news_item g).title),
       ("content", JField.jstr (generate_news_item g).content),
       ("category", JField.jstr (generate_news_item g).category),
       ("timestamp", JField.jstr (generate_news_item g).timestamp),
       ("keywords", JField.jstrArr (generate_news_item g).keywords),
       ("source", JField.jstr "NewsGenerator")] :=
  ⟨rfl, rfl⟩

/-- C5, counterexample: after exhausting retries the value returned to the
caller is the same bare `None` regardless of what the underlying errors were,
so the returned failure result does not carry the last underlying error. -/
theorem connect_failure_result_carries_no_error :
    (establish_connection (fun _ => AttemptResult.retryable "E1") 3).connection =
      (establish_connection (fun _ => AttemptResult.retryable "E2") 3).connection ∧
    (establish_connection (fun _ => AttemptResult.retryable "E1") 3).connection = none ∧
    ("E1" : String) ≠ "E2" := by
  refine ⟨?_, ?_, by decide⟩ <;> rfl

/-- C5, amended: after exhausting retries `establish_connection` returns the
failure value `None` to its caller rather than raising; the returned value
carries no error context — the last underlying error appears only in the
warning log line of the final attempt, and the log ends with the generic
failure message. -/
theorem connect_failure_none_with_logged_error (errs : Nat → String) (m : Nat) (hm : 0 < m) :
    (establish_connection (fun i => AttemptResult.retryable (errs i)) m).connection = none ∧
    connectWarn (m - 1) (errs (m - 1)) ∈
      (establish_connection (fun i => AttemptResult.retryable (errs i)) m).log ∧
    (∃ l, (establish_connection (fun i => AttemptResult.retryable (errs i)) m).log =
      l ++ [connectFailLog]) := by
  have h1 := establishFrom_allRetry (fun i => AttemptResult.retryable (errs i))
    (fun i => ⟨errs i, rfl⟩) m 0
  refine ⟨h1.1, ?_, establishFrom_log_tail _ m 0 h1.1⟩
  have := establishFrom_warn_last errs m 0 hm
  simpa [establish_connection] using this

/-- C5, witness: two attempts, both failing retryably. -/
theorem connect_failure_none_with_logged_error_witness :
    0 < 2 ∧
    ((establish_connection (fun i => AttemptResult.retryable ((fun j => natStr j) i)) 2).connection
        = none ∧
      connectWarn 1 (natStr 1) ∈
        (establish_connection (fun i => AttemptResult.retryable ((fun j => natStr j) i)) 2).log ∧
      (∃ l, (establish_connection (fun i => AttemptResult.retryable ((fun j => natStr j) i)) 2).log =
        l ++ [connectFailLog])) :=
  ⟨by decide, connect_failure_none_with_logged_error (fun j => natStr j) 2 (by decide)⟩

/-- C6: `publish_message` never lets an exception escape; a connect failure or
broker rejection is reported as a `Publication failed` log line; the driver
loop keeps processing the remaining schedule after any cycle; and the loop
only stops when the interrupt is delivered. (A configuration failure in
`_validate_network_prerequisites` re-raises inside `__init__`, before the loop
ever starts, and so is outside this model of the cycle.) -/
theorem publish_failure_isolated_loop_continues (env : PublishEnv) (m : NewsRecord)
    (g : GenInput) (evs : List CycleEvent) :
    (publish_message env m).raised = none ∧
    ((establish_connection env.connectOutcome env.max_retries).connection = none →
      LogEntry.mk .error "Publication failed: Could not establish RabbitMQ connection" ∈
        (publish_message env m).log) ∧
    (∀ e c, env.broker = PublishStep.brokerError e →
      (establish_connection env.connectOutcome env.max_retries).connection = some c →
      LogEntry.mk .error ("Publication failed: " ++ e) ∈ (publish_message env m).log) ∧
    (start_news_generation (CycleEvent.run env g :: evs) =
      (publish_message env (generate_news_item g) :: (start_news_generation evs).1,
        (start_news_generation evs).2)) ∧
    (CycleEvent.interrupt ∉ evs → (start_news_generation evs).2 = false) := by
  refine ⟨rfl, ?_, ?_, rfl, ?_⟩
  · intro h
    unfold publish_message publish_try
    simp [h]
  · intro e c hb h
    unfold publish_message publish_try
    simp [h, hb]
  · intro h
    induction evs with
    | nil => rfl
    | cons ev rest ih =>
      cases ev with
      | interrupt => simp at h
      | run env' g' =>
        have : CycleEvent.interrupt ∉ rest := fun hm => h (List.mem_cons_of_mem _ hm)
        simp [start_news_generation, ih this]

/-- C6, witness: a cycle whose connect always fails logs the failure and does
not raise; a broker rejection is logged; and a one-cycle schedule without an
interrupt does not stop the loop. -/
theorem publish_failure_isolated_loop_continues_witness :
    ((publish_message ⟨fun _ => .retryable "refused", 2, .confirmed⟩
        (generate_news_item ⟨2, 1, 1, "t"⟩)).raised = none ∧
      LogEntry.mk .error "Publication failed: Could not establish RabbitMQ connection" ∈
        (publish_message ⟨fun _ => .retryable "refused", 2, .confirmed⟩
          (generate_news_item ⟨2, 1, 1, "t"⟩)).log) ∧
    (LogEntry.mk .error "Publication failed: nacked" ∈
      (publish_message ⟨fun _ => .success, 2, .brokerError "nacked"⟩
        (generate_news_item ⟨2, 1, 1, "t"⟩)).log) ∧
    (start_news_generation
        [CycleEvent.run ⟨fun _ => .retryable "refused", 2, .confirmed⟩ ⟨2, 1, 1, "t"⟩]).2
      = false :=
  ⟨⟨(publish_failure_isolated_loop_continues ⟨fun _ => .retryable "refused", 2, .confirmed⟩
        (generate_news_item ⟨2, 1, 1, "t"⟩) ⟨2, 1, 1, "t"⟩ []).1,
    (publish_failure_isolated_loop_continues ⟨fun _ => .retryable "refused", 2, .confirmed⟩
        (generate_news_item ⟨2, 1, 1, "t"⟩) ⟨2, 1, 1, "t"⟩ []).2.1 rfl⟩,
   (publish_failure_isolated_loop_continues ⟨fun _ => .success, 2, .brokerError "nacked"⟩
        (generate_news_item ⟨2, 1, 1, "t"⟩) ⟨2, 1, 1, "t"⟩ []).2.2.1 "nacked" 0 rfl rfl,
   (publish_failure_isolated_loop_continues ⟨fun _ => .success, 2, .confirmed⟩
        (generate_news_item ⟨2, 1, 1, "t"⟩) ⟨2, 1, 1, "t"⟩
        [CycleEvent.run ⟨fun _ => .retryable "refused", 2, .confirmed⟩ ⟨2, 1, 1, "t"⟩]).2.2.2.2
      (by intro h; simp at h)⟩

/-- C7: whatever the environment does, when `publish_message` returns, any
connection that was opened during the call has been closed by the `finally`
block, and the connection variable is never left in the half-open state. -/
theorem publish_leaves_no_half_open_connection (env : PublishEnv) (m : NewsRecord) :
    ((publish_message env m).opened = true → (publish_message env m).connection = some true) ∧
    (publish_message env m).connection ≠ some false := by
  unfold publish_message publish_try
  cases h : (establish_connection env.connectOutcome env.max_retries).connection with
  | none => simp [h]
  | some c =>
    cases env.broker <;> simp [h]

/-- C7, witness: a publish whose broker call raises still ends with the opened
connection closed. -/
theorem publish_leaves_no_half_open_connection_witness :
    (publish_message ⟨fun _ => .success, 3, .brokerError "nacked"⟩
        (generate_news_item ⟨1, 2, 0, "t"⟩)).opened = true ∧
    (publish_message ⟨fun _ => .success, 3, .brokerError "nacked"⟩
        (generate_news_item ⟨1, 2, 0, "t"⟩)).connection = some true :=
  ⟨rfl,
   (publish_leaves_no_half_open_connection ⟨fun _ => .success, 3, .brokerError "nacked"⟩
      (generate_news_item ⟨1, 2, 0, "t"⟩)).1 rfl⟩

/-- C8: serializing a generated record to the wire text and decoding that text
yields a record equal to the original in every field (id, title, content,
category, timestamp, keywords — and the extra source field). -/
theorem encode_decode_round_trip (g : GenInput) :
    decodeRecord (encodeRecord (generate_news_item g)) = some (generate_news_item g) :=
  decodeRecord_encodeRecord (generate_news_item g)

/-- C9: if the first `k` attempts fail retryably and attempt `k` raises an
exception that is none of the three retryable classes, `establish_connection`
stops immediately: it returns `None` after `k + 1` attempts, which can be
fewer than `max_retries`. -/
theorem connect_fatal_error_stops_early (outcome : Nat → AttemptResult) (err : String)
    (k m : Nat) (hr : ∀ i, i < k → ∃ e, outcome i = AttemptResult.retryable e)
    (hf : outcome k = AttemptResult.fatal err) (hk : k < m) :
    (establish_connection outcome m).connection = none ∧
    (establish_connection outcome m).attempts = k + 1 := by
  have := establishFrom_fatal outcome err k 0 m (by simpa using hr) (by simpa using hf) hk
  simpa [establish_connection] using this

/-- C9, witness: one retryable failure, then a non-retryable error, budget 5:
the loop stops after 2 attempts. -/
theorem connect_fatal_error_stops_early_witness :
    (establish_connection (fun i => if i < 1 then .retryable "down" else .fatal "boom") 5).connection
      = none ∧
    (establish_connection (fun i => if i < 1 then .retryable "down" else .fatal "boom") 5).attempts
      = 2 :=
  connect_fatal_error_stops_early (fun i => if i < 1 then .retryable "down" else .fatal "boom")
    "boom" 1 5 (by intro i hi; exact ⟨"down", by simp [hi]⟩) (by simp) (by omega)

/-- C10: every generated record has exactly two keywords — one drawn from the
shared pool `innovation`/`research`/`discovery`, followed by the lowercase of
the record's own category name. -/
theorem keywords_exactly_two_shape (g : GenInput) :
    (generate_news_item g).keywords.length = 2 ∧
    ∃ k, (generate_news_item g).keywords = [k, strLower (generate_news_item g).category] ∧
      k ∈ sharedKeywords :=
  ⟨rfl, sharedKeywords.get ⟨g.kwIdx.val, g.kwIdx.isLt⟩, rfl, List.get_mem _ _ _⟩
